import Mathlib

/-!
# MusicBot playback session engine — shallow embedding

A shallow embedding of the playback core of `src/src/bot.py` (the `VoiceState`
session class and the `Music` cog commands that drive it), together with
theorems settling the specification claims about it.

Modelling conventions:
* A Discord voice client (the spec's AudioSink) is a `Sink` carrying its
  render state (`playing` / `paused` / `stopped`); `voice : Option Sink`
  models the `self.voice` attribute (`none` = not connected).
* Tracks (`Song`) are opaque identifiers.
* User-visible messages are an inductive `Msg` rather than the literal
  format strings; sink invocations are recorded as a trace of `SinkCall`s.
* `asyncio.Event next` is the Boolean `nextEvent` field; `play_next_song`
  (the sink's completion callback) is a separate function returning
  `Except`, because in the Python code it runs on the sink's side, outside
  the playback loop's `try`/`except`.
* Python truthiness tests on `self.voice` / `self.current` become
  `Option.isSome`.
* One iteration of `audio_player_task`'s `while True` body is the function
  `audioPlayerIter`; its `arrival` argument stands for the track, if any,
  that an external `enqueue` delivers to the blocked `songs.get()` within
  the 180-second window when the queue is empty at the start of the wait.
-/

/-- An opaque track (`Song` in `media.py`); only identity matters here. -/
structure Song where
  id : Nat
deriving DecidableEq, Repr

/-- Render state of a connected voice client (the AudioSink). -/
inductive SinkPlayState where
  | playing
  | paused
  | stopped
deriving DecidableEq, Repr

/-- A connected voice client: `discord.VoiceClient` as seen by the bot
(`is_playing()` / `is_paused()` query `playState`). -/
structure Sink where
  playState : SinkPlayState
deriving DecidableEq, Repr

/-- Messages the commands send to the text channel, one constructor per
`ctx.send` call site in `bot.py`. -/
inductive Msg where
  | nothingPlaying          -- "Nothing being played at the moment."
  | volumeRange             -- "Volume must be between 0 and 100"
  | volumeSet (v : Int)     -- "Volume of the player set to ...%"
  | notPlayingMusic         -- "Not playing any music right now..."
  | notConnected            -- "Not connected to any voice channel."
  | emptyQueue              -- "Empty queue."
  | playError               -- "An error occurred while playing audio."
  | nowPlayingEmbed (s : Song)
deriving DecidableEq, Repr

/-- Calls issued to the voice client (AudioSink). -/
inductive SinkCall where
  | play (s : Song)
  | stop
  | pause
  | resume
deriving DecidableEq, Repr

/-- Observable side effects of one command invocation. -/
structure Effects where
  msgs : List Msg := []
  sinkCalls : List SinkCall := []
  reactions : List String := []
deriving DecidableEq, Repr

/-- The per-room session state: the fields of `VoiceState.__init__`
(plus `loopStarted`, recording that `__init__` spawned the
`audio_player_task` background task). -/
structure VoiceState where
  current : Option Song
  voice : Option Sink
  nextEvent : Bool
  songs : List Song
  loop : Bool
  volume : Rat
  skip_votes : List Nat
  loopStarted : Bool
deriving DecidableEq, Repr

/-- Model of `VoiceState.__init__`: fresh session state with the background loop
task created. -/
def newVoiceState : VoiceState :=
  { current := none
    voice := none
    nextEvent := false
    songs := []
    loop := false
    volume := 1/2
    skip_votes := []
    loopStarted := true }

/-- Model of `VoiceState.is_playing`: `self.voice and self.current` — both attributes
are non-`None` (truthiness). -/
def is_playing (vs : VoiceState) : Bool :=
  vs.voice.isSome && vs.current.isSome

/-- Model of `discord.VoiceClient.stop()` as it affects the client's render state. -/
def stopSink (sk : Sink) : Sink :=
  { sk with playState := .stopped }

/-- Model of `VoiceState.skip` (bot.py 109–113): clear the vote set, then stop the
sink if `is_playing`. -/
def VoiceState.skip (vs : VoiceState) : VoiceState × Effects :=
  let vs1 := { vs with skip_votes := [] }
  if is_playing vs1 then
    ({ vs1 with voice := vs1.voice.map stopSink }, { sinkCalls := [.stop] })
  else
    (vs1, {})

/-- Model of `VoiceState.stop` (bot.py 115–120): clear the queue; if a voice client
is attached, disconnect it and drop the reference. This is the teardown
the idle-timeout path schedules and the `leave` command awaits. -/
def VoiceState.teardown (vs : VoiceState) : VoiceState :=
  { vs with songs := [], voice := none }

/-- Model of `VoiceState.play_next_song` (bot.py 103–107): the sink's completion
callback. With an error it raises `VoiceError(str(error))` — before
setting the `next` event — and the exception escapes into the sink's
callback context (nothing in the loop catches it); with no error it sets
the event that wakes the loop. -/
def play_next_song (vs : VoiceState) (error : Option String) :
    Except String VoiceState :=
  match error with
  | some e => .error ("VoiceError: " ++ e)
  | none => .ok { vs with nextEvent := true }

/-- The `loop` property setter (bot.py 58–60): store the flag, nothing
else. This is the spec's `setLoop(bool)`. -/
def setLoop (vs : VoiceState) (value : Bool) : VoiceState :=
  { vs with loop := value }

/-- Model of `Music._volume` (bot.py 177–188): the `!volume` command. Guards on
`is_playing`; then tests `0 > volume > 100` — Python chains this as
`0 > volume and volume > 100` — and otherwise stores `volume / 100`. -/
def volumeCmd (vs : VoiceState) (volume : Int) : VoiceState × Effects :=
  if !is_playing vs then
    (vs, { msgs := [.nothingPlaying] })
  else if 0 > volume ∧ volume > 100 then
    (vs, { msgs := [.volumeRange] })
  else
    ({ vs with volume := (volume : Rat) / 100 },
     { msgs := [.volumeSet volume] })

/-- Result of a guarded voice-client command: took the guarded action,
fell through as a no-op, or raised `AttributeError` by dereferencing
`self.voice` while it is `None` (the cog's error handler then reports
"An error occurred"). -/
inductive GuardResult where
  | acted
  | noop
  | attrError
deriving DecidableEq, Repr

/-- Model of `Music._pause` (bot.py 196–202): the `!pause` command. The guard is
`not self.is_playing and self.voice.is_playing()`; the first conjunct is
evaluated first and short-circuits, the second dereferences `self.voice`. -/
def pauseCmd (vs : VoiceState) : VoiceState × Effects × GuardResult :=
  if is_playing vs then
    (vs, {}, .noop)
  else
    match vs.voice with
    | none => (vs, {}, .attrError)
    | some sk =>
      if sk.playState = .playing then
        ({ vs with voice := some { sk with playState := .paused } },
         { sinkCalls := [.pause], reactions := ["pauseplay"] }, .acted)
      else
        (vs, {}, .noop)

/-- Model of `Music._resume` (bot.py 204–210): the `!resume` command, with the same
shape of guard as `_pause` but testing `self.voice.is_paused()`. -/
def resumeCmd (vs : VoiceState) : VoiceState × Effects × GuardResult :=
  if is_playing vs then
    (vs, {}, .noop)
  else
    match vs.voice with
    | none => (vs, {}, .attrError)
    | some sk =>
      if sk.playState = .paused then
        ({ vs with voice := some { sk with playState := .playing } },
         { sinkCalls := [.resume], reactions := ["pauseplay"] }, .acted)
      else
        (vs, {}, .noop)

/-- Model of `Music._stop` (bot.py 212–220): the `!stop` command. Clears the queue
unconditionally; if `is_playing`, stops the voice client (which stays
connected) and reacts. -/
def stopCmd (vs : VoiceState) : VoiceState × Effects :=
  let vs1 := { vs with songs := [] }
  if is_playing vs1 then
    ({ vs1 with voice := vs1.voice.map stopSink },
     { sinkCalls := [.stop], reactions := ["stopsquare"] })
  else
    (vs1, {})

/-- Model of `Music._skip` (bot.py 222–234): the `!skip` command. If nothing is
playing it only reports; otherwise it reacts and calls
`VoiceState.skip` (the vote-counting block is commented out). -/
def skipCmd (vs : VoiceState) : VoiceState × Effects :=
  if !is_playing vs then
    (vs, { msgs := [.notPlayingMusic] })
  else
    let (vs1, eff) := vs.skip
    (vs1, { eff with reactions := "skiptrack" :: eff.reactions })

/-- Model of `Music._loop` (bot.py 300–311): the `!loop` command. Guards on
`is_playing`, then inverts the loop flag through the property setter. -/
def loopCmd (vs : VoiceState) : VoiceState × Effects :=
  if !is_playing vs then
    (vs, { msgs := [.nothingPlaying] })
  else
    (setLoop vs (!vs.loop), { reactions := ["checkmark"] })

/-- Model of `async with timeout(180)` (bot.py 85): the idle dequeue-wait bound, in
seconds. -/
def dequeueTimeoutSeconds : Nat := 180

/-- What one iteration of `audio_player_task`'s `while True` body did. -/
structure IterOutput where
  state : VoiceState
  dequeued : Bool
  played : Option Song
  stopInitiated : Bool
  loopTerminated : Bool
  errorReported : Bool
  sentNowPlaying : Bool
  waitsForNext : Bool
deriving DecidableEq, Repr

/-- The play half of a loop iteration (bot.py 92–101): read
`self.current.source` (raises `AttributeError` if `current` is `None`),
call `self.voice.play` (raises if `voice` is `None`), send the
"now playing" embed, then `await self.next.wait()`. Any exception is
caught by the iteration's `except` and reported once, after which the
iteration still falls through to `await self.next.wait()`. -/
def playPhase (vs : VoiceState) (dq : Bool) : IterOutput :=
  match vs.current, vs.voice with
  | some c, some sk =>
    { state := { vs with voice := some { sk with playState := .playing } }
      dequeued := dq
      played := some c
      stopInitiated := false
      loopTerminated := false
      errorReported := false
      sentNowPlaying := true
      waitsForNext := true }
  | _, _ =>
    { state := vs
      dequeued := dq
      played := none
      stopInitiated := false
      loopTerminated := false
      errorReported := true
      sentNowPlaying := false
      waitsForNext := true }

/-- One iteration of `VoiceState.audio_player_task`'s `while True` body
(bot.py 74–101). First `self.next.clear()`; then, unless the loop flag is
set, dequeue with the 180-second bound — `arrival` is the track an
external enqueue delivers within that window when the queue starts empty,
`none` meaning the wait times out. On timeout the code schedules
`self.stop()`, prints, and `continue`s (so the `while True` loop does not
exit and `await self.next.wait()` is skipped). -/
def audioPlayerIter (vs : VoiceState) (arrival : Option Song) : IterOutput :=
  let vs0 := { vs with nextEvent := false }
  if vs0.loop then
    playPhase vs0 false
  else
    match vs0.songs with
    | s :: rest => playPhase { vs0 with current := some s, songs := rest } true
    | [] =>
      match arrival with
      | some s => playPhase { vs0 with current := some s } true
      | none =>
        { state := vs0.teardown
          dequeued := false
          played := none
          stopInitiated := true
          loopTerminated := false
          errorReported := false
          sentNowPlaying := false
          waitsForNext := false }

/-- Model of `Music.get_voice_state` (bot.py 128–134): look the guild id up in the
`voice_states` dict; if absent (`if not state:`), construct a fresh
`VoiceState` (whose `__init__` starts the background loop) and store it.
The dict is modelled as an association list with first-match lookup. -/
def regLookup : List (Nat × VoiceState) → Nat → Option VoiceState
  | [], _ => none
  | (k, v) :: rest, gid => if k = gid then some v else regLookup rest gid

/-- Model of `del self.voice_states[gid]` (bot.py 175). -/
def regDelete (m : List (Nat × VoiceState)) (gid : Nat) :
    List (Nat × VoiceState) :=
  m.filter (fun p => p.1 != gid)

/-- Model of `Music.get_voice_state` itself: returns the session and the
possibly-extended dict. -/
def get_voice_state (m : List (Nat × VoiceState)) (gid : Nat) :
    VoiceState × List (Nat × VoiceState) :=
  match regLookup m gid with
  | some state => (state, m)
  | none => (newVoiceState, (gid, newVoiceState) :: m)

/-- Model of `Music._leave` (bot.py 167–175), including `cog_before_invoke`'s
`get_voice_state`: if the session has no voice client, only report;
otherwise `await state.stop()` (teardown of the removed object) and
delete the dict entry. -/
def leaveCmd (m : List (Nat × VoiceState)) (gid : Nat) :
    List (Nat × VoiceState) × Effects :=
  let (vs, m1) := get_voice_state m gid
  if vs.voice.isSome then
    (regDelete m1 gid, {})
  else
    (m1, { msgs := [.notConnected] })

/-- A registry-level operation: the two that create or destroy entries. -/
inductive RegOp where
  | get (gid : Nat)
  | leave (gid : Nat)
deriving DecidableEq, Repr

/-- Effect of one registry operation on the `voice_states` dict. -/
def applyOp (m : List (Nat × VoiceState)) : RegOp → List (Nat × VoiceState)
  | .get gid => (get_voice_state m gid).2
  | .leave gid => (leaveCmd m gid).1

/-- Effect of a sequence of registry operations, left to right. -/
def applyOps (m : List (Nat × VoiceState)) : List RegOp → List (Nat × VoiceState)
  | [] => m
  | op :: rest => applyOps (applyOp m op) rest

/-- The room identifiers currently holding a session. -/
def regKeys (m : List (Nat × VoiceState)) : List Nat :=
  m.map Prod.fst

/-- Queue-edit failure: index-based edit outside bounds (spec §7). -/
inductive QueueError where
  | outOfRange
deriving DecidableEq, Repr

/-- Modelled from the spec: `SongQueue.remove` lives in `media.py`, which
is not among the provided sources (only its caller `Music._remove` is).
Spec §4.1: "`removeAt(index)`: removes and discards the Track at 0-based
position `index` in current order; fails with `OutOfRange` if `index` is
outside `[0, length)`." -/
def removeAt (q : List Song) (i : Int) : Except QueueError (List Song) :=
  if 0 ≤ i ∧ i < (q.length : Int) then .ok (q.eraseIdx i.toNat)
  else .error .outOfRange

/-- Model of `Music._remove` (bot.py 287–298): the `!dequeue <index>` command.
Empty-queue guard, then `songs.remove(index - 1)` on the 1-based user
index; a `QueueError` propagates out of the command handler. -/
def removeCmd (vs : VoiceState) (index : Int) :
    Except QueueError (VoiceState × Effects) :=
  if vs.songs.length = 0 then
    .ok (vs, { msgs := [.emptyQueue] })
  else
    match removeAt vs.songs (index - 1) with
    | .ok q => .ok ({ vs with songs := q }, { reactions := ["checkmark"] })
    | .error e => .error e

instance {ε α : Type} [DecidableEq ε] [DecidableEq α] : DecidableEq (Except ε α)
  | .ok a, .ok b =>
    if h : a = b then .isTrue (by rw [h]) else .isFalse (by simp [h])
  | .ok _, .error _ => .isFalse (by simp)
  | .error _, .ok _ => .isFalse (by simp)
  | .error a, .error b =>
    if h : a = b then .isTrue (by rw [h]) else .isFalse (by simp [h])

/-- A session that is playing: voice client attached and rendering, current
track set. -/
def playingState : VoiceState :=
  { newVoiceState with voice := some ⟨.playing⟩, current := some ⟨0⟩ }

/-- A session whose voice client is attached but paused, current track set. -/
def pausedState : VoiceState :=
  { newVoiceState with voice := some ⟨.paused⟩, current := some ⟨0⟩ }

/-- A session idling after its last track: voice client attached but
rendering nothing, current track still set from the previous play. -/
def idleAfterPlayState : VoiceState :=
  { newVoiceState with voice := some ⟨.stopped⟩, current := some ⟨0⟩ }

/-- C3: the volume command's range guard is `0 > volume > 100`, i.e.
`0 > volume and volume > 100` — unsatisfiable, so no input is ever
rejected: `!volume 150` succeeds and stores `1.5`, `!volume -1` succeeds
and stores `-0.01`, contradicting both the spec and the command's own
"Volume must be between 0 and 100" message, which is unreachable. -/
theorem C3_volume_guard_unreachable :
    (volumeCmd playingState 150).1.volume = 3/2 ∧
    (volumeCmd playingState 150).2.msgs = [Msg.volumeSet 150] ∧
    (volumeCmd playingState (-1)).1.volume = -(1/100) ∧
    (volumeCmd playingState (-1)).2.msgs = [Msg.volumeSet (-1)] ∧
    (∀ v : Int, decide (0 > v ∧ v > 100) = false) ∧
    (volumeCmd playingState 0).1.volume = 0 ∧
    (volumeCmd playingState 100).1.volume = 1 := by
  refine ⟨?_, rfl, ?_, rfl, ?_, ?_, ?_⟩
  · norm_num [volumeCmd, is_playing, playingState, newVoiceState]
  · norm_num [volumeCmd, is_playing, playingState, newVoiceState]
  · intro v
    simp only [decide_eq_false_iff_not]
    omega
  · norm_num [volumeCmd, is_playing, playingState, newVoiceState]
  · norm_num [volumeCmd, is_playing, playingState, newVoiceState]

/-- C4: the guards of `!pause` and `!resume` read
`not self.is_playing and ...`, so while a track is playing (session
playing, sink rendering) `!pause` is a no-op, and while the sink is
paused `!resume` is a no-op — the opposite of the spec and of the
commands' own docstrings ("Pauses the currently playing song."). -/
theorem C4_pause_resume_inverted :
    pauseCmd playingState = (playingState, {}, .noop) ∧
    resumeCmd pausedState = (pausedState, {}, .noop) := by
  exact ⟨rfl, rfl⟩

/-- C5: `!stop` clears the queue, issues a sink stop exactly when the
session is playing, never detaches the voice client, and leaves volume,
loop flag, current track and skip votes untouched. -/
theorem C5_stop_clears_queue_keeps_connection (vs : VoiceState) :
    (stopCmd vs).1.songs = [] ∧
    (stopCmd vs).2.sinkCalls = (if is_playing vs then [SinkCall.stop] else []) ∧
    (stopCmd vs).1.voice.isSome = vs.voice.isSome ∧
    (stopCmd vs).1.volume = vs.volume ∧
    (stopCmd vs).1.loop = vs.loop ∧
    (stopCmd vs).1.current = vs.current ∧
    (stopCmd vs).1.skip_votes = vs.skip_votes := by
  have hsame : is_playing { vs with songs := ([] : List Song) } = is_playing vs := rfl
  unfold stopCmd
  simp only [hsame]
  by_cases h : is_playing vs = true
  · simp [h, Option.isSome_map]
  · simp [Bool.not_eq_true] at h
    simp [h]

/-- C7 counterexample: with nothing playing and a non-empty vote set,
`!skip` returns at the `is_playing` guard before `VoiceState.skip` runs,
so the skip-vote set is NOT cleared — refuting "skip() always clears the
skip-vote set". -/
theorem C7_counterexample :
    (skipCmd { newVoiceState with skip_votes := [7] }).1.skip_votes = [7] ∧
    (skipCmd { newVoiceState with skip_votes := [7] }).2.msgs
      = [Msg.notPlayingMusic] ∧
    (skipCmd { newVoiceState with skip_votes := [7] }).2.sinkCalls = [] := by
  exact ⟨rfl, rfl, rfl⟩

/-- C7 amended: `!skip` clears the skip-vote set and issues exactly one
sink stop when `is_playing`; otherwise it reports "not playing", issues
no sink call, and leaves the vote set (and the voice client) unchanged. -/
theorem C7_skip_behaviour (vs : VoiceState) :
    (skipCmd vs).1.skip_votes = (if is_playing vs then [] else vs.skip_votes) ∧
    (skipCmd vs).2.sinkCalls
      = (if is_playing vs then [SinkCall.stop] else []) ∧
    (skipCmd vs).2.msgs
      = (if is_playing vs then [] else [Msg.notPlayingMusic]) ∧
    (skipCmd vs).1.voice
      = (if is_playing vs then vs.voice.map stopSink else vs.voice) ∧
    (skipCmd vs).1.current = vs.current := by
  have hsame : is_playing { vs with skip_votes := ([] : List Nat) }
      = is_playing vs := rfl
  unfold skipCmd VoiceState.skip
  by_cases h : is_playing vs = true
  · simp [h, hsame]
  · simp [Bool.not_eq_true] at h
    simp [h, hsame]


/-- The play half of an iteration never terminates the loop. -/
theorem playPhase_loopTerminated (vs : VoiceState) (dq : Bool) :
    (playPhase vs dq).loopTerminated = false := by
  unfold playPhase
  rcases hc : vs.current with _ | c <;> rcases hv : vs.voice with _ | sk <;>
    simp [hc, hv]

/-- The play half of an iteration always falls through to
`await self.next.wait()`. -/
theorem playPhase_waits (vs : VoiceState) (dq : Bool) :
    (playPhase vs dq).waitsForNext = true := by
  unfold playPhase
  rcases hc : vs.current with _ | c <;> rcases hv : vs.voice with _ | sk <;>
    simp [hc, hv]

/-- When the play half reports an error, nothing was handed to the sink. -/
theorem playPhase_error_played (vs : VoiceState) (dq : Bool)
    (h : (playPhase vs dq).errorReported = true) :
    (playPhase vs dq).played = none := by
  unfold playPhase at h ⊢
  rcases hc : vs.current with _ | c <;> rcases hv : vs.voice with _ | sk <;>
    simp [hc, hv] at h ⊢

/-- C1 counterexample: a session idling with loop mode off and an empty
queue (voice client attached, current track left over from the last
play): when the 180-second dequeue-wait times out, the iteration takes
the timeout branch (`stopInitiated = true`) but the `while True` loop
does NOT terminate — the code `continue`s into another iteration —
refuting "the loop terminates". -/
theorem C1_counterexample :
    (audioPlayerIter idleAfterPlayState none).stopInitiated = true ∧
    (audioPlayerIter idleAfterPlayState none).loopTerminated = false := by
  exact ⟨rfl, rfl⟩

/-- C1 amended: on idle timeout with loop mode off, the iteration
schedules `VoiceState.stop` (clearing the queue and disconnecting the
voice client) exactly once, skips `await self.next.wait()`, and the loop
continues to its next iteration rather than terminating. `audioPlayerIter`
neither takes nor produces the registry, so the timeout path leaves the
`voice_states` dict untouched — only the `leave` command deletes entries. -/
theorem C1_timeout_behaviour (vs : VoiceState)
    (hl : vs.loop = false) (hq : vs.songs = []) :
    audioPlayerIter vs none =
      { state := { vs with nextEvent := false, songs := [], voice := none }
        dequeued := false
        played := none
        stopInitiated := true
        loopTerminated := false
        errorReported := false
        sentNowPlaying := false
        waitsForNext := false } := by
  unfold audioPlayerIter VoiceState.teardown
  simp [hl, hq]

/-- C1 witness: the amended timeout behaviour at the concrete idle state. -/
theorem C1_witness :
    audioPlayerIter idleAfterPlayState none =
      { state := { idleAfterPlayState with
                    nextEvent := false, songs := [], voice := none }
        dequeued := false
        played := none
        stopInitiated := true
        loopTerminated := false
        errorReported := false
        sentNowPlaying := false
        waitsForNext := false } :=
  C1_timeout_behaviour idleAfterPlayState rfl rfl

/-- C2 counterexample: a completion callback reporting an error raises
`VoiceError` — outside the loop's `try`/`except`, and before the `next`
event is ever set — so the fault is not caught at the loop boundary and
the loop, still awaiting `next`, does not proceed to its next iteration. -/
theorem C2_counterexample :
    play_next_song newVoiceState (some "boom")
      = .error ("VoiceError: " ++ "boom") := by
  rfl

/-- C2 amended: the loop body's `try`/`except` catches any fault raised
inside an iteration and reports it once (the sink then receives nothing
for that iteration), the `while True` loop never terminates — not even
on timeout — and the faulted iteration still falls through to wait on
the `next` event; but the completion callback sets that event only when
called without an error: with an error it raises `VoiceError` instead,
so the loop stays suspended rather than proceeding. -/
theorem C2_fault_handling :
    (∀ vs arrival, (audioPlayerIter vs arrival).loopTerminated = false) ∧
    (∀ vs arrival, (audioPlayerIter vs arrival).errorReported = true →
      (audioPlayerIter vs arrival).waitsForNext = true ∧
      (audioPlayerIter vs arrival).played = none) ∧
    (∀ vs, play_next_song vs none = .ok { vs with nextEvent := true }) ∧
    (∀ vs e, play_next_song vs (some e)
      = .error ("VoiceError: " ++ e)) := by
  refine ⟨?_, ?_, fun vs => rfl, fun vs e => rfl⟩
  · intro vs arrival
    unfold audioPlayerIter
    rcases hl : vs.loop with _ | _
    · simp only [hl, Bool.false_eq_true, if_false]
      rcases hq : vs.songs with _ | ⟨s, rest⟩ <;> simp only [hq]
      · rcases arrival with _ | s
        · simp
        · simp [playPhase_loopTerminated]
      · simp [playPhase_loopTerminated]
    · simp [hl, playPhase_loopTerminated]
  · intro vs arrival h
    unfold audioPlayerIter at h ⊢
    rcases hl : vs.loop with _ | _
    · simp only [hl, Bool.false_eq_true, if_false] at h ⊢
      rcases hq : vs.songs with _ | ⟨s, rest⟩ <;> simp only [hq] at h ⊢
      · rcases arrival with _ | s
        · simp at h
        · exact ⟨playPhase_waits _ _, playPhase_error_played _ _ h⟩
      · exact ⟨playPhase_waits _ _, playPhase_error_played _ _ h⟩
    · simp only [hl, if_true] at h ⊢
      exact ⟨playPhase_waits _ _, playPhase_error_played _ _ h⟩

/-- C2 witness: the amended behaviour at concrete inputs — a looping
session with no current track hits the play-phase fault, which is
reported, and the iteration still waits; a clean completion sets the
event. -/
theorem C2_witness :
    ((audioPlayerIter { newVoiceState with loop := true } none).waitsForNext
        = true ∧
      (audioPlayerIter { newVoiceState with loop := true } none).played
        = none) ∧
    (audioPlayerIter { newVoiceState with loop := true } none).loopTerminated
      = false ∧
    play_next_song newVoiceState none
      = .ok { newVoiceState with nextEvent := true } :=
  ⟨C2_fault_handling.2.1 { newVoiceState with loop := true } none rfl,
   C2_fault_handling.1 { newVoiceState with loop := true } none,
   C2_fault_handling.2.2.1 newVoiceState⟩

/-- C6: with a voice client attached, an iteration that starts with the
loop flag set replays the existing current track without touching the
queue; one that starts with it clear dequeues the head of the queue
(under the 180-second bound) and plays it. `setLoop` (the `loop`
property setter) only stores the flag — the running iteration read the
flag once, at its start, so the new value is first observed by the next
iteration. -/
theorem C6_loop_replay_semantics (vs : VoiceState) (sk : Sink)
    (arrival : Option Song) (hv : vs.voice = some sk) :
    (∀ c, vs.loop = true → vs.current = some c →
      (audioPlayerIter vs arrival).dequeued = false ∧
      (audioPlayerIter vs arrival).played = some c ∧
      (audioPlayerIter vs arrival).state.songs = vs.songs ∧
      (audioPlayerIter vs arrival).state.current = some c) ∧
    (∀ s rest, vs.loop = false → vs.songs = s :: rest →
      (audioPlayerIter vs arrival).dequeued = true ∧
      (audioPlayerIter vs arrival).played = some s ∧
      (audioPlayerIter vs arrival).state.current = some s ∧
      (audioPlayerIter vs arrival).state.songs = rest) ∧
    dequeueTimeoutSeconds = 180 ∧
    (∀ b, (setLoop vs b).loop = b ∧ (setLoop vs b).current = vs.current ∧
      (setLoop vs b).songs = vs.songs ∧ (setLoop vs b).voice = vs.voice) := by
  refine ⟨?_, ?_, rfl, fun b => ⟨rfl, rfl, rfl, rfl⟩⟩
  · intro c hl hc
    unfold audioPlayerIter playPhase
    simp [hl, hc, hv]
  · intro s rest hl hq
    unfold audioPlayerIter playPhase
    simp [hl, hq, hv]

/-- C6 witness: the two branches at concrete states — a looping session
replays its current track with the queue untouched; a non-looping one
dequeues and plays the head. -/
theorem C6_witness :
    ((audioPlayerIter { playingState with loop := true } none).dequeued
        = false ∧
      (audioPlayerIter { playingState with loop := true } none).played
        = some ⟨0⟩) ∧
    (audioPlayerIter { playingState with songs := [⟨3⟩, ⟨4⟩] } none).played
        = some ⟨3⟩ ∧
    (audioPlayerIter { playingState with songs := [⟨3⟩, ⟨4⟩] } none).state.songs
        = [⟨4⟩] := by
  have h1 := (C6_loop_replay_semantics { playingState with loop := true }
    ⟨.playing⟩ none rfl).1 ⟨0⟩ rfl rfl
  have h2 := (C6_loop_replay_semantics { playingState with songs := [⟨3⟩, ⟨4⟩] }
    ⟨.playing⟩ none rfl).2.1 ⟨3⟩ [⟨4⟩] rfl rfl
  exact ⟨⟨h1.1, h1.2.1⟩, h2.2.1, h2.2.2.2⟩

/-- C8: `removeAt` (modelled from the spec, see its doc comment) fails
with `OutOfRange` for any index outside `[0, length)` — returning no
queue, so the caller's queue is untouched — and for an in-range index
removes exactly the element at that 0-based position, keeping everything
before it and after it in order. -/
theorem C8_removeAt_bounds (q : List Song) (i : Int) :
    (i < 0 ∨ (q.length : Int) ≤ i → removeAt q i = .error .outOfRange) ∧
    (0 ≤ i → i < (q.length : Int) →
      removeAt q i = .ok (q.take i.toNat ++ q.drop (i.toNat + 1)) ∧
      (q.take i.toNat ++ q.drop (i.toNat + 1)).length + 1 = q.length) := by
  constructor
  · intro h
    unfold removeAt
    rw [if_neg]
    omega
  · intro h0 h1
    have hlen : i.toNat < q.length := by omega
    constructor
    · unfold removeAt
      rw [if_pos ⟨h0, h1⟩, List.eraseIdx_eq_take_drop_succ]
    · simp only [List.length_append, List.length_take, List.length_drop]
      omega

/-- C8 witness: the bounds behaviour on the concrete queue `[1, 2, 3]` —
index 5 is rejected, index 1 removes exactly the middle element. -/
theorem C8_witness :
    removeAt [⟨1⟩, ⟨2⟩, ⟨3⟩] 5 = .error .outOfRange ∧
    removeAt [⟨1⟩, ⟨2⟩, ⟨3⟩] (-1) = .error .outOfRange ∧
    removeAt [⟨1⟩, ⟨2⟩, ⟨3⟩] 1
      = .ok ([⟨1⟩, ⟨2⟩, ⟨3⟩].take 1 ++ [⟨1⟩, ⟨2⟩, ⟨3⟩].drop 2) :=
  ⟨(C8_removeAt_bounds [⟨1⟩, ⟨2⟩, ⟨3⟩] 5).1 (by decide),
   (C8_removeAt_bounds [⟨1⟩, ⟨2⟩, ⟨3⟩] (-1)).1 (by decide),
   ((C8_removeAt_bounds [⟨1⟩, ⟨2⟩, ⟨3⟩] 1).2 (by decide) (by decide)).1⟩


/-- A failed lookup means the key is not among the stored room ids. -/
theorem regLookup_none_notMem {m : List (Nat × VoiceState)} {g : Nat}
    (h : regLookup m g = none) : g ∉ regKeys m := by
  induction m with
  | nil => simp [regKeys]
  | cons p rest ih =>
    obtain ⟨k, v⟩ := p
    unfold regLookup at h
    by_cases hk : k = g
    · simp [hk] at h
    · simp only [hk, if_false] at h
      intro hmem
      rw [show regKeys ((k, v) :: rest) = k :: regKeys rest from rfl] at hmem
      rcases List.mem_cons.mp hmem with h1 | h2
      · exact hk h1.symm
      · exact ih h h2

/-- One registry operation preserves uniqueness of room identifiers. -/
theorem applyOp_nodup {m : List (Nat × VoiceState)} (op : RegOp)
    (h : (regKeys m).Nodup) : (regKeys (applyOp m op)).Nodup := by
  cases op with
  | get gid =>
    unfold applyOp get_voice_state
    cases hg : regLookup m gid with
    | some s => simpa [hg] using h
    | none =>
      simp only [hg]
      rw [show regKeys ((gid, newVoiceState) :: m) = gid :: regKeys m from rfl]
      exact List.nodup_cons.mpr ⟨regLookup_none_notMem hg, h⟩
  | leave gid =>
    unfold applyOp leaveCmd get_voice_state
    cases hg : regLookup m gid with
    | some s =>
      simp only [hg]
      by_cases hv : s.voice.isSome
      · simp only [hv, if_true]
        exact h.sublist ((List.filter_sublist m).map Prod.fst)
      · simpa [hv] using h
    | none =>
      simp only [hg]
      have hv : newVoiceState.voice.isSome = false := rfl
      simp only [hv, Bool.false_eq_true, if_false]
      rw [show regKeys ((gid, newVoiceState) :: m) = gid :: regKeys m from rfl]
      exact List.nodup_cons.mpr ⟨regLookup_none_notMem hg, h⟩

/-- Any sequence of registry operations preserves uniqueness. -/
theorem applyOps_nodup (ops : List RegOp) {m : List (Nat × VoiceState)}
    (h : (regKeys m).Nodup) : (regKeys (applyOps m ops)).Nodup := by
  induction ops generalizing m with
  | nil => exact h
  | cons op rest ih => exact ih (applyOp_nodup op h)

/-- C9: across any sequence of `get_voice_state` / `leave` operations the
`voice_states` dict holds at most one session per room id; a `get` on a
stored room returns the stored session and leaves the dict unchanged,
and a `get` on an absent room creates, stores and returns exactly one
new session whose background loop has been started. -/
theorem C9_registry_at_most_one (m : List (Nat × VoiceState)) (gid : Nat)
    (ops : List RegOp) (hnd : (regKeys m).Nodup) :
    (regKeys (applyOps m ops)).Nodup ∧
    (∀ s, regLookup m gid = some s → get_voice_state m gid = (s, m)) ∧
    (regLookup m gid = none →
      get_voice_state m gid = (newVoiceState, (gid, newVoiceState) :: m) ∧
      regLookup ((gid, newVoiceState) :: m) gid = some newVoiceState ∧
      newVoiceState.loopStarted = true) := by
  refine ⟨applyOps_nodup ops hnd, ?_, ?_⟩
  · intro s hs
    unfold get_voice_state
    rw [hs]
  · intro hn
    unfold get_voice_state
    rw [hn]
    exact ⟨rfl, by simp [regLookup], rfl⟩

/-- C9 witness: starting from the empty dict, `get 1, get 1, leave 1`
keeps the room ids unique; a `get` on a one-entry dict returns that
entry unchanged; a `get` on the empty dict creates and stores the fresh
session. -/
theorem C9_witness :
    (regKeys (applyOps [] [RegOp.get 1, RegOp.get 1, RegOp.leave 1])).Nodup ∧
    get_voice_state [(1, newVoiceState)] 1
      = (newVoiceState, [(1, newVoiceState)]) ∧
    get_voice_state [] 1 = (newVoiceState, [(1, newVoiceState)]) := by
  refine ⟨(C9_registry_at_most_one [] 1 [RegOp.get 1, RegOp.get 1,
    RegOp.leave 1] (by simp [regKeys])).1, ?_, ?_⟩
  · exact (C9_registry_at_most_one [(1, newVoiceState)] 1 []
      (by simp [regKeys])).2.1 newVoiceState rfl
  · exact ((C9_registry_at_most_one [] 1 [] (by simp [regKeys])).2.2 rfl).1

/-- The play half of an iteration never changes the current-track slot. -/
theorem playPhase_state_current (vs : VoiceState) (dq : Bool) :
    (playPhase vs dq).state.current = vs.current := by
  unfold playPhase
  rcases hc : vs.current with _ | c <;> rcases hv : vs.voice with _ | sk <;>
    simp [hc, hv]

/-- C10: no code path ever clears `self.current` — the loop only writes
fresh tracks into it and `VoiceState.stop`/the commands never touch it —
so once a track has been stored the slot stays occupied; consequently a
session with a voice client attached and a leftover current track counts
as `is_playing` even while the sink renders nothing, and the commands
gated on `is_playing` (volume, loop, skip) all take effect in that idle
state. -/
theorem C10_current_never_cleared :
    (∀ vs arrival, vs.current.isSome = true →
      (audioPlayerIter vs arrival).state.current.isSome = true) ∧
    (∀ vs, (skipCmd vs).1.current = vs.current) ∧
    (∀ vs, (stopCmd vs).1.current = vs.current) ∧
    (∀ vs v, (volumeCmd vs v).1.current = vs.current) ∧
    (∀ vs, (loopCmd vs).1.current = vs.current) ∧
    (∀ vs, (pauseCmd vs).1.current = vs.current) ∧
    (∀ vs, (resumeCmd vs).1.current = vs.current) ∧
    (∀ vs, (VoiceState.teardown vs).current = vs.current) ∧
    (∀ vs sk c, vs.voice = some sk → vs.current = some c →
      is_playing vs = true ∧
      (loopCmd vs).1.loop = !vs.loop ∧
      (skipCmd vs).1.skip_votes = [] ∧
      (skipCmd vs).2.sinkCalls = [SinkCall.stop] ∧
      (∀ v : Int, (volumeCmd vs v).1.volume = (v : Rat) / 100)) := by
  have hskip : ∀ vs : VoiceState,
      is_playing { vs with skip_votes := ([] : List Nat) }
        = is_playing vs := fun vs => rfl
  have hstop : ∀ vs : VoiceState,
      is_playing { vs with songs := ([] : List Song) }
        = is_playing vs := fun vs => rfl
  refine ⟨?_, ?_, ?_, ?_, ?_, ?_, ?_, fun vs => rfl, ?_⟩
  · intro vs arrival hc
    unfold audioPlayerIter
    rcases hl : vs.loop with _ | _
    · simp only [hl, Bool.false_eq_true, if_false]
      rcases hq : vs.songs with _ | ⟨s, rest⟩ <;> simp only [hq]
      · rcases arrival with _ | s
        · simpa [VoiceState.teardown] using hc
        · simp [playPhase_state_current]
      · simp [playPhase_state_current]
    · simp only [hl, if_true]
      rw [playPhase_state_current]
      exact hc
  · intro vs
    unfold skipCmd VoiceState.skip
    by_cases h : is_playing vs = true
    · simp [h, hskip]
    · simp [Bool.not_eq_true] at h
      simp [h, hskip]
  · intro vs
    unfold stopCmd
    by_cases h : is_playing vs = true
    · simp [h, hstop]
    · simp [Bool.not_eq_true] at h
      simp [h, hstop]
  · intro vs v
    unfold volumeCmd
    split_ifs <;> rfl
  · intro vs
    unfold loopCmd setLoop
    split_ifs <;> rfl
  · intro vs
    unfold pauseCmd
    by_cases h : is_playing vs = true
    · simp [h]
    · simp [Bool.not_eq_true] at h
      simp [h]
      rcases hv : vs.voice with _ | sk
      · rfl
      · rcases sk with ⟨ps⟩
        cases ps <;> simp
  · intro vs
    unfold resumeCmd
    by_cases h : is_playing vs = true
    · simp [h]
    · simp [Bool.not_eq_true] at h
      simp [h]
      rcases hv : vs.voice with _ | sk
      · rfl
      · rcases sk with ⟨ps⟩
        cases ps <;> simp
  · intro vs sk c hv hc
    have hp : is_playing vs = true := by simp [is_playing, hv, hc]
    refine ⟨hp, ?_, ?_, ?_, ?_⟩
    · simp [loopCmd, setLoop, hp]
    · unfold skipCmd VoiceState.skip
      simp [hp, hskip]
    · unfold skipCmd VoiceState.skip
      simp [hp, hskip]
    · intro v
      unfold volumeCmd
      rw [if_neg (by simp [hp]), if_neg (by omega)]

/-- C10 witness: in the idle state after the last track (voice client
attached, sink rendering nothing, current track left set), the slot
survives the timeout iteration, `is_playing` holds, and the loop toggle,
skip and volume commands all take effect. -/
theorem C10_witness :
    (audioPlayerIter idleAfterPlayState none).state.current.isSome = true ∧
    is_playing idleAfterPlayState = true ∧
    (loopCmd idleAfterPlayState).1.loop = true ∧
    (skipCmd idleAfterPlayState).1.skip_votes = [] ∧
    (skipCmd idleAfterPlayState).2.sinkCalls = [SinkCall.stop] ∧
    (volumeCmd idleAfterPlayState 50).1.volume = (50 : Rat) / 100 := by
  have h := C10_current_never_cleared.2.2.2.2.2.2.2.2 idleAfterPlayState
    ⟨.stopped⟩ ⟨0⟩ rfl rfl
  exact ⟨C10_current_never_cleared.1 idleAfterPlayState none rfl,
    h.1, h.2.1, h.2.2.1, h.2.2.2.1, h.2.2.2.2 50⟩
